import Mathlib

/-!
Verification of the messaging core of shadowofcards/go-toolkit.

The Go sources embedded here are `src/messaging/subscriber.go`,
`src/messaging/publisher.go`, `src/messaging/nats.go` and the newer
publisher generation in `src/unnamed/part_010`.  External collaborators
(the NATS client, the `xid` generator, metrics and logging sinks) are
modelled as injected outcomes: a broker response becomes a function
argument, an emitted side effect becomes an element of an explicit
effect trace.  The concurrent push-mode consumption loop is modelled as
a small-step nondeterministic machine whose steps are exactly those the
Go scheduler allows for the callback, the worker goroutines and the
main `Consume` goroutine.
-/

set_option autoImplicit false

namespace Messaging

/-- Go `error` values that the messaging core distinguishes.  `other`
covers the opaque errors the code merely propagates. -/
inductive GoErr where
  | ctxCanceled
  | streamNotFound
  | streamAlreadyExists
  | marshalErr
  | publishErr
  | flushErr
  | timeout
  | other (s : String)
deriving DecidableEq, Repr

/-- Number of occurrences of `x` in a list (explicit recursion so that
all counting lemmas below are self-contained). -/
def countOf {α : Type} [DecidableEq α] (x : α) : List α → Nat
  | [] => 0
  | e :: rest => (if e = x then 1 else 0) + countOf x rest

theorem countOf_append {α : Type} [DecidableEq α] (x : α) (a b : List α) :
    countOf x (a ++ b) = countOf x a + countOf x b := by
  induction a with
  | nil => simp [countOf]
  | cons e rest ih => simp [countOf, ih]; omega

theorem countOf_eq_zero_of_not_mem {α : Type} [DecidableEq α] {x : α} {l : List α}
    (h : x ∉ l) : countOf x l = 0 := by
  induction l with
  | nil => rfl
  | cons e rest ih =>
    simp only [List.mem_cons, not_or] at h
    simp [countOf, ih h.2, fun he : e = x => h.1 he.symm]
    intro he
    exact absurd he.symm h.1

/-- `noneIs x l = true` iff `x` does not occur in `l`. -/
def noneIs {α : Type} [DecidableEq α] (x : α) : List α → Bool
  | [] => true
  | e :: rest => decide (e ≠ x) && noneIs x rest

theorem noneIs_eq_true_of_not_mem {α : Type} [DecidableEq α] {x : α} {l : List α}
    (h : x ∉ l) : noneIs x l = true := by
  induction l with
  | nil => rfl
  | cons e rest ih =>
    simp only [List.mem_cons, not_or] at h
    simp [noneIs, ih h.2]
    exact fun he => h.1 he.symm

/-- `noStartAfter r b t = true` says that in the trace `t` (oldest event
first) no `b` event occurs strictly after an occurrence of `r`. -/
def noStartAfter {α : Type} [DecidableEq α] (r b : α) : List α → Bool
  | [] => true
  | e :: rest => (if e = r then noneIs b rest else true) && noStartAfter r b rest

theorem noStartAfter_of_not_mem {α : Type} [DecidableEq α] (r b : α) {l : List α}
    (h : r ∉ l) : noStartAfter r b l = true := by
  induction l with
  | nil => rfl
  | cons e rest ih =>
    simp only [List.mem_cons, not_or] at h
    have he : ¬ e = r := fun hh => h.1 hh.symm
    simp [noStartAfter, he, ih h.2]

theorem noStartAfter_append_ret {α : Type} [DecidableEq α] (r b : α) {pre : List α}
    (h : r ∉ pre) : noStartAfter r b (pre ++ [r]) = true := by
  induction pre with
  | nil => simp [noStartAfter, noneIs]
  | cons e rest ih =>
    simp only [List.mem_cons, not_or] at h
    have he : ¬ e = r := fun hh => h.1 hh.symm
    simp [noStartAfter, he, ih h.2]

/-! ## StreamProvisioner

`EnsureStream` appears twice, with identical bodies: on the `Subscriber`
(`src/messaging/subscriber.go` lines 67–79) and on the new `Publisher`
(`src/unnamed/part_010` lines 48–60):

    _, err := js.StreamInfo(subject)
    if err == nats.ErrStreamNotFound {
        _, err = js.AddStream(&nats.StreamConfig{Name: subject, Subjects: []string{subject}})
    }
    return err

`ensureStreamGo` is that control flow with the two broker responses
injected; `ensureStream` runs it against a fake broker that tracks the
names of created streams, as §8.1 of the spec asks. -/

/-- The `EnsureStream` body with the broker's `StreamInfo` and
`AddStream` responses supplied as arguments. -/
def ensureStreamGo (infoErr addErr : Option GoErr) : Option GoErr :=
  if infoErr = some GoErr.streamNotFound then addErr else infoErr

/-- Fake JetStream broker: the list of stream names created so far. -/
structure FakeJS where
  streams : List String
deriving DecidableEq, Repr

/-- Fake `StreamInfo`: found iff a stream of that name exists. -/
def FakeJS.streamInfoErr (js : FakeJS) (subject : String) : Option GoErr :=
  if subject ∈ js.streams then none else some GoErr.streamNotFound

/-- Fake `AddStream`: fails when the name is taken, otherwise records it. -/
def FakeJS.addStream (js : FakeJS) (name : String) : Option GoErr × FakeJS :=
  if name ∈ js.streams then (some GoErr.streamAlreadyExists, js)
  else (none, { streams := js.streams ++ [name] })

/-- `EnsureStream` run against the fake broker (the `js == nil` guard is
not reachable here: a nil JetStream context returns `nil` at once). -/
def ensureStream (js : FakeJS) (subject : String) : Option GoErr × FakeJS :=
  let infoErr := js.streamInfoErr subject
  if infoErr = some GoErr.streamNotFound then js.addStream subject
  else (infoErr, js)

/-- `EnsureStream` called `n` times in a row, collecting every per-call
error and the final broker state. -/
def ensureIter (js : FakeJS) (subject : String) : Nat → List (Option GoErr) × FakeJS
  | 0 => ([], js)
  | n + 1 =>
    let r := ensureStream js subject
    let rest := ensureIter r.2 subject n
    (r.1 :: rest.1, rest.2)

theorem ensureStream_err_none (js : FakeJS) (s : String) :
    (ensureStream js s).1 = none := by
  by_cases h : s ∈ js.streams <;>
    simp [ensureStream, FakeJS.streamInfoErr, FakeJS.addStream, h]

theorem ensureStream_mem (js : FakeJS) (s : String) :
    s ∈ (ensureStream js s).2.streams := by
  by_cases h : s ∈ js.streams <;>
    simp [ensureStream, FakeJS.streamInfoErr, FakeJS.addStream, h]

theorem ensureStream_count (js : FakeJS) (s : String) :
    countOf s (ensureStream js s).2.streams =
      if s ∈ js.streams then countOf s js.streams else countOf s js.streams + 1 := by
  by_cases h : s ∈ js.streams
  · simp [ensureStream, FakeJS.streamInfoErr, FakeJS.addStream, h]
  · simp [ensureStream, FakeJS.streamInfoErr, FakeJS.addStream, h, countOf_append, countOf]

theorem ensureStream_fixed {js : FakeJS} {s : String} (h : s ∈ js.streams) :
    ensureStream js s = (none, js) := by
  simp [ensureStream, FakeJS.streamInfoErr, h]

/-! ## Publisher

Embeds `PublishWithID` / `Publish` of `src/unnamed/part_010` and the
older `Publish` of `src/messaging/publisher.go`.  Broker responses
(marshal, JetStream publish, core publish, the two flush variants, the
`EnsureStream` outcome) and the `xid.New().String()` value are injected
through `PubEnv`; the calls the code makes are recorded, in program
order, in a `List PubEff` trace. -/

/-- Static publisher configuration (`prefix` and `useJetStream` fields;
`js == nil` is carried by `PubEnv.jsNil`). -/
structure PubCfg where
  pfx : String
  useJetStream : Bool
deriving DecidableEq, Repr

/-- Injected collaborator outcomes for one publish call. -/
structure PubEnv where
  jsNil : Bool
  genId : String
  ensureErr : Option GoErr
  marshalErr : Option GoErr
  jsPubErr : Option GoErr
  corePubErr : Option GoErr
  flushErr : Option GoErr
  flushTimeoutErr : Option GoErr
deriving DecidableEq, Repr

/-- The two facts about a `context.Context` the publisher inspects:
whether it is already done and whether it carries a deadline. -/
structure GoCtx where
  done : Bool
  hasDeadline : Bool
deriving DecidableEq, Repr

/-- Externally visible calls a publish makes, in program order. -/
inductive PubEff where
  | ensure (subject : String)
  | marshalAttempt
  | jsPublish (subject : String) (msgId : String)
  | corePublish (subject : String)
  | flushCall
  | flushTimeoutCall
deriving DecidableEq, Repr

/-- The classic (non-JetStream) publish body shared by
`publisher.go` lines 40–59 and `part_010` lines 122–170: marshal,
`conn.Publish`, then `FlushTimeout` when the context has a deadline and
`Flush` otherwise. -/
def corePublishPath (env : PubEnv) (ctx : GoCtx) (subject : String) :
    Option GoErr × List PubEff :=
  match env.marshalErr with
  | some e => (some e, [.marshalAttempt])
  | none =>
    match env.corePubErr with
    | some e => (some e, [.marshalAttempt, .corePublish subject])
    | none =>
      if ctx.hasDeadline then
        (env.flushTimeoutErr, [.marshalAttempt, .corePublish subject, .flushTimeoutCall])
      else
        (env.flushErr, [.marshalAttempt, .corePublish subject, .flushCall])

/-- `PublishWithID` (`src/unnamed/part_010` lines 68–171): early return
on a done context, then the JetStream branch (default the message id,
ensure the stream, marshal, `js.PublishMsg` with the `Nats-Msg-Id`
header) when `useJetStream && js != nil`, else the classic fallback. -/
def publishWithID (p : PubCfg) (env : PubEnv) (ctx : GoCtx) (subject0 msgID0 : String) :
    Option GoErr × List PubEff :=
  if ctx.done then (some GoErr.ctxCanceled, [])
  else
    let subject := if p.pfx = "" then subject0 else p.pfx ++ subject0
    if p.useJetStream && !env.jsNil then
      let msgID := if msgID0 = "" then env.genId else msgID0
      match env.ensureErr with
      | some e => (some e, [.ensure subject])
      | none =>
        match env.marshalErr with
        | some e => (some e, [.ensure subject, .marshalAttempt])
        | none => (env.jsPubErr, [.ensure subject, .marshalAttempt, .jsPublish subject msgID])
    else
      corePublishPath env ctx subject

/-- `Publish` of `src/unnamed/part_010` line 63: delegates to
`PublishWithID` with an empty id. -/
def publish (p : PubCfg) (env : PubEnv) (ctx : GoCtx) (subject : String) :
    Option GoErr × List PubEff :=
  publishWithID p env ctx subject ""

/-- `Publish` of `src/messaging/publisher.go` lines 31–60: done-context
check, then the classic path only. -/
def publishClassic (pfx : String) (env : PubEnv) (ctx : GoCtx) (subject0 : String) :
    Option GoErr × List PubEff :=
  if ctx.done then (some GoErr.ctxCanceled, [])
  else corePublishPath env ctx (if pfx = "" then subject0 else pfx ++ subject0)

/-! ## Pull-mode (JetStream) consumption

Embeds `consumeJetStream` of `src/messaging/subscriber.go` lines
177–229.  The fetch loop is driven by a finite script of broker
responses; an exhausted script behaves like a cancelled context (the
loop otherwise never terminates on its own).  Handler invocations,
ack/nak calls, metric increments and the final `return nil` are
recorded as `JsEv` events. -/

/-- A fetched JetStream message: its payload and its `Nats-Msg-Id`
header (empty when absent). -/
structure Msg where
  data : List Nat
  msgId : String
deriving DecidableEq, Repr

/-- Events of the pull-mode fetch loop, oldest first. -/
inductive JsEv where
  | recvMetric
  | errMetric
  | procMetric
  | hstart
  | hend
  | nakCall
  | ackCall
  | fetchLog
  | retNil
deriving DecidableEq, Repr

/-- One iteration of the inner `for _, msg := range msgs` body
(`subscriber.go` lines 200–226): received metric, handler call, then on
error the error metric, the error log and `Nak()`, on success the
processed metric and `Ack()`. -/
def processOne (h : Msg → Option GoErr) (m : Msg) : List JsEv :=
  match h m with
  | some _ => [.recvMetric, .hstart, .hend, .errMetric, .nakCall]
  | none => [.recvMetric, .hstart, .hend, .procMetric, .ackCall]

/-- Broker-side outcome of one loop iteration: the context is observed
done, `Fetch` fails with a non-timeout error, `Fetch` times out with no
messages, or `Fetch` returns a batch. -/
inductive FetchOutcome where
  | cancelled
  | fetchFail (e : GoErr)
  | fetchTimeout
  | batch (msgs : List Msg)

/-- Event trace of the fetch loop (`subscriber.go` lines 190–228) run
against a response script; the script running out is modelled as the
context becoming done. -/
def jsLoopTrace (h : Msg → Option GoErr) : List FetchOutcome → List JsEv
  | [] => [.retNil]
  | .cancelled :: _ => [.retNil]
  | .fetchFail _ :: rest => .fetchLog :: jsLoopTrace h rest
  | .fetchTimeout :: rest => jsLoopTrace h rest
  | .batch msgs :: rest => (msgs.map (processOne h)).flatten ++ jsLoopTrace h rest

/-- Return value of the fetch loop: `nil` on every path. -/
def jsLoopResult (h : Msg → Option GoErr) : List FetchOutcome → Option GoErr
  | [] => none
  | .cancelled :: _ => none
  | .fetchFail _ :: rest => jsLoopResult h rest
  | .fetchTimeout :: rest => jsLoopResult h rest
  | .batch _ :: rest => jsLoopResult h rest

theorem jsLoopResult_eq_none (h : Msg → Option GoErr) (script : List FetchOutcome) :
    jsLoopResult h script = none := by
  induction script with
  | nil => rfl
  | cons o rest ih => cases o <;> simp [jsLoopResult, ih]

/-- What a `Consume` call produced: its return value and whether the
subscription reached the Ready state (the "subscription ready" log). -/
structure ConsumeOutcome where
  err : Option GoErr
  ready : Bool
deriving DecidableEq, Repr

/-- Setup and result structure of `consumeJetStream` (lines 177–229):
`EnsureStream` failure and `PullSubscribe` failure abort before the
ready log; otherwise the fetch loop runs and returns `nil`. -/
def consumeJetStream (ensureErr pullSubErr : Option GoErr)
    (h : Msg → Option GoErr) (script : List FetchOutcome) : ConsumeOutcome :=
  match ensureErr with
  | some e => ⟨some e, false⟩
  | none =>
    match pullSubErr with
    | some e => ⟨some e, false⟩
    | none => ⟨jsLoopResult h script, true⟩

/-- Setup and result structure of `consumeCore` (lines 149–175):
`Subscribe`/`QueueSubscribe` failure and `Flush` failure abort before
the ready log; otherwise the call blocks until cancellation and
returns `nil`. -/
def consumeCoreOutcome (subErr flushErr : Option GoErr) : ConsumeOutcome :=
  match subErr with
  | some e => ⟨some e, false⟩
  | none =>
    match flushErr with
    | some e => ⟨some e, false⟩
    | none => ⟨none, true⟩

/-! ## Push-mode consumption as a small-step machine

`consumeCore` (`src/messaging/subscriber.go` lines 91–175) after a
successful setup consists of three kinds of concurrently running code:

* the NATS delivery callback `cb` (lines 131–148), a three-way
  `select` that enqueues onto `msgCh`, observes `parent.Done()`, or
  falls to the `default` branch and drops the message;
* `concurrency` worker goroutines (lines 102–129), each running
  `for m := range msgCh` and invoking the handler;
* the main goroutine (lines 168–174), blocked on `<-parent.Done()`,
  then `sub.Drain()`, `close(msgCh)`, `wg.Wait()`, `return nil`.

States carry counts rather than message identities: `queue` is the
number of buffered messages, `idle`/`busy` the workers not yet exited,
`pending` the broker deliveries whose callback has not run yet.  The
trace records, oldest first, the externally observable events.  Go's
`select` semantics are mirrored exactly: with buffer space and a live
context only the send is ready; with buffer space and a done context
the send and the done case race; with a full buffer the done case fires
when cancelled and the `default` drop otherwise.  Callbacks are not
stepped after `close(msgCh)` (the model assumes the broker has stopped
delivering by then, which is what the `Drain`-before-`close` order is
for). -/

/-- Observable events of a push-mode run, oldest first. -/
inductive Ev where
  | enq
  | drop
  | skip
  | hstart
  | hend
  | ret
deriving DecidableEq, Repr

/-- Program counter of the main `Consume` goroutine. -/
inductive MainPC where
  | waitCancel
  | waitJoin
  | done
deriving DecidableEq, Repr

/-- Global state of one push-mode subscription after setup. -/
structure PushState where
  cap : Nat
  queue : Nat
  closed : Bool
  cancelled : Bool
  pending : Nat
  idle : Nat
  busy : Nat
  mainPC : MainPC
  trace : List Ev
deriving DecidableEq, Repr

/-- Initial state: queue capacity `concurrency*4` (line 97), `n` idle
workers (lines 99–130), `p` broker deliveries still to come, main
goroutine blocked on the context. -/
def pushInit (n p : Nat) : PushState :=
  { cap := n * 4, queue := 0, closed := false, cancelled := false,
    pending := p, idle := n, busy := 0, mainPC := .waitCancel, trace := [] }

/-- One interleaving step of the push-mode machine. -/
inductive PushStep : PushState → PushState → Prop where
  /-- The caller cancels `parent`. -/
  | cancel (s : PushState) :
      PushStep s { s with cancelled := true }
  /-- `cb`: the `select` send case fires — `msgCh <- m` (line 134). -/
  | enq (s : PushState) (hp : 0 < s.pending) (hcl : s.closed = false)
      (hq : s.queue < s.cap) :
      PushStep s { s with pending := s.pending - 1, queue := s.queue + 1,
                          trace := s.trace ++ [.enq] }
  /-- `cb`: the `<-parent.Done()` case fires (line 136); the message is
  neither enqueued nor counted as dropped. -/
  | skip (s : PushState) (hp : 0 < s.pending) (hcl : s.closed = false)
      (hcan : s.cancelled = true) :
      PushStep s { s with pending := s.pending - 1, trace := s.trace ++ [.skip] }
  /-- `cb`: the `default` case fires — queue full, context live — and
  the dropped metric/log is recorded (lines 138–146). -/
  | drop (s : PushState) (hp : 0 < s.pending) (hcl : s.closed = false)
      (hq : s.cap ≤ s.queue) (hcan : s.cancelled = false) :
      PushStep s { s with pending := s.pending - 1, trace := s.trace ++ [.drop] }
  /-- A worker receives from `msgCh` and enters the handler (lines
  104–115). -/
  | take (s : PushState) (hq : 0 < s.queue) (hi : 0 < s.idle) :
      PushStep s { s with queue := s.queue - 1, idle := s.idle - 1,
                          busy := s.busy + 1, trace := s.trace ++ [.hstart] }
  /-- A worker's handler invocation returns (line 115). -/
  | finish (s : PushState) (hb : 0 < s.busy) :
      PushStep s { s with busy := s.busy - 1, idle := s.idle + 1,
                          trace := s.trace ++ [.hend] }
  /-- A worker's `range msgCh` ends — channel closed and empty — and the
  goroutine exits (line 103). -/
  | exit (s : PushState) (hi : 0 < s.idle) (hq : s.queue = 0) (hcl : s.closed = true) :
      PushStep s { s with idle := s.idle - 1 }
  /-- Main goroutine: `<-parent.Done()` fires; `sub.Drain()` and
  `close(msgCh)` run (lines 168–171). -/
  | drainClose (s : PushState) (hm : s.mainPC = .waitCancel) (hcan : s.cancelled = true) :
      PushStep s { s with mainPC := .waitJoin, closed := true }
  /-- Main goroutine: `wg.Wait()` returns — every worker has exited —
  and `Consume` returns `nil` (lines 172–174). -/
  | ret (s : PushState) (hm : s.mainPC = .waitJoin) (hi : s.idle = 0) (hb : s.busy = 0) :
      PushStep s { s with mainPC := .done, trace := s.trace ++ [.ret] }

/-- Inductive invariant of the push-mode machine, for initial worker
count `n` and total broker production `p`. -/
def PushInv (n p : Nat) (s : PushState) : Prop :=
  s.cap = n * 4 ∧
  s.queue ≤ s.cap ∧
  countOf Ev.hstart s.trace = countOf Ev.hend s.trace + s.busy ∧
  countOf Ev.enq s.trace = countOf Ev.hstart s.trace + s.queue ∧
  p = s.pending + countOf Ev.enq s.trace + countOf Ev.drop s.trace
        + countOf Ev.skip s.trace ∧
  (s.cancelled = false → countOf Ev.skip s.trace = 0) ∧
  (s.mainPC ≠ .waitCancel → s.cancelled = true) ∧
  (s.mainPC = .waitJoin → s.closed = true) ∧
  (s.mainPC = .done → s.closed = true ∧ s.idle = 0 ∧ s.busy = 0 ∧
      ∃ pre, s.trace = pre ++ [Ev.ret] ∧ Ev.ret ∉ pre) ∧
  (s.mainPC ≠ .done → Ev.ret ∉ s.trace) ∧
  s.idle + s.busy ≤ n ∧
  (n = 0 → countOf Ev.hstart s.trace = 0)

theorem pushInv_init (n p : Nat) : PushInv n p (pushInit n p) := by
  refine ⟨rfl, by simp [pushInit], ?_, ?_, ?_, ?_, ?_, ?_, ?_, ?_, ?_, ?_⟩ <;>
    simp [pushInit, countOf]

theorem pushInv_step {n p : Nat} {s s' : PushState}
    (hstep : PushStep s s') (hinv : PushInv n p s) : PushInv n p s' := by
  obtain ⟨h1, h2, h3, h4, h5, h6, h7, h8, h9, h10, h11, h12⟩ := hinv
  cases hstep with
  | cancel =>
    refine ⟨h1, h2, h3, h4, h5, ?_, fun _ => rfl, h8, h9, h10, h11, h12⟩
    intro hc; simp at hc
  | enq hp hcl hq =>
    refine ⟨h1, by simpa using hq, ?_, ?_, ?_, ?_, h7, h8, ?_, ?_, h11, ?_⟩
    · simpa [countOf_append, countOf] using h3
    · simp [countOf_append, countOf]; omega
    · simp [countOf_append, countOf]; omega
    · intro hc; simpa [countOf_append, countOf] using h6 hc
    · intro hm; exact absurd ((h9 hm).1) (by simp [hcl])
    · intro hm; simp [h10 hm]
    · intro hn; simpa [countOf_append, countOf] using h12 hn
  | skip hp hcl hcan =>
    refine ⟨h1, h2, ?_, ?_, ?_, ?_, h7, h8, ?_, ?_, h11, ?_⟩
    · simpa [countOf_append, countOf] using h3
    · simpa [countOf_append, countOf] using h4
    · simp [countOf_append, countOf]; omega
    · intro hc; simp [hcan] at hc
    · intro hm; exact absurd ((h9 hm).1) (by simp [hcl])
    · intro hm; simp [h10 hm]
    · intro hn; simpa [countOf_append, countOf] using h12 hn
  | drop hp hcl hq hcan =>
    refine ⟨h1, h2, ?_, ?_, ?_, ?_, h7, h8, ?_, ?_, h11, ?_⟩
    · simpa [countOf_append, countOf] using h3
    · simpa [countOf_append, countOf] using h4
    · simp [countOf_append, countOf]; omega
    · intro hc; simpa [countOf_append, countOf] using h6 hc
    · intro hm; exact absurd ((h9 hm).1) (by simp [hcl])
    · intro hm; simp [h10 hm]
    · intro hn; simpa [countOf_append, countOf] using h12 hn
  | take hq hi =>
    refine ⟨h1, by simp; omega, ?_, ?_, ?_, ?_, h7, h8, ?_, ?_, by simp; omega, ?_⟩
    · simp [countOf_append, countOf]; omega
    · simp [countOf_append, countOf]; omega
    · simpa [countOf_append, countOf] using h5
    · intro hc; simpa [countOf_append, countOf] using h6 hc
    · intro hm; exact absurd ((h9 hm).2.1) (by omega)
    · intro hm; simp [h10 hm]
    · intro hn; exact absurd hi (by omega)
  | finish hb =>
    refine ⟨h1, h2, ?_, ?_, ?_, ?_, h7, h8, ?_, ?_, by simp; omega, ?_⟩
    · simp [countOf_append, countOf]; omega
    · simpa [countOf_append, countOf] using h4
    · simpa [countOf_append, countOf] using h5
    · intro hc; simpa [countOf_append, countOf] using h6 hc
    · intro hm; exact absurd ((h9 hm).2.2.1) (by omega)
    · intro hm; simp [h10 hm]
    · intro hn; simpa [countOf_append, countOf] using h12 hn
  | exit hi hq hcl =>
    refine ⟨h1, h2, h3, h4, h5, h6, h7, h8, ?_, h10, by simp; omega, h12⟩
    intro hm; exact absurd ((h9 hm).2.1) (by omega)
  | drainClose hm hcan =>
    refine ⟨h1, h2, h3, h4, h5, ?_, fun _ => hcan, fun _ => rfl, ?_, ?_, h11, h12⟩
    · intro hc; simp [hcan] at hc
    · intro hd; simp at hd
    · intro _; exact h10 (by simp [hm])
  | ret hm hi hb =>
    have hret : Ev.ret ∉ s.trace := h10 (by simp [hm])
    refine ⟨h1, h2, ?_, ?_, ?_, ?_, ?_, ?_, ?_, ?_, h11, ?_⟩
    · simp [countOf_append, countOf]; omega
    · simpa [countOf_append, countOf] using h4
    · simpa [countOf_append, countOf] using h5
    · intro hc; simpa [countOf_append, countOf] using h6 hc
    · intro _; exact h7 (by simp [hm])
    · intro hd; simp at hd
    · intro _; exact ⟨h8 hm, hi, hb, s.trace, rfl, hret⟩
    · intro hd; exact absurd rfl hd
    · intro hn; simpa [countOf_append, countOf] using h12 hn

/-- Every state reachable from `pushInit n p` satisfies the invariant. -/
theorem pushInv_reachable {n p : Nat} {s : PushState}
    (h : Relation.ReflTransGen PushStep (pushInit n p) s) : PushInv n p s := by
  induction h with
  | refl => exact pushInv_init n p
  | tail _ hstep ih => exact pushInv_step hstep ih

/-- `make(chan T, c)`: Go panics at runtime when the requested size is
negative; the panic is modelled as `none`. -/
def makeChanCap (c : Int) : Option Nat :=
  if c < 0 then none else some c.toNat

/-- The queue allocation `make(chan *nats.Msg, s.concurrency*4)` of
`consumeCore` line 97, for an arbitrary (unvalidated) `concurrency`. -/
def consumeCoreChanCap (concurrency : Int) : Option Nat :=
  makeChanCap (concurrency * 4)

/-! ### Concrete push-mode runs -/

/-- End state of a complete run with one worker and one delivered
message: enqueue, handle, cancel, drain, exit, return. -/
def drainRunFinal : PushState :=
  { cap := 4, queue := 0, closed := true, cancelled := true, pending := 0,
    idle := 0, busy := 0, mainPC := .done,
    trace := [.enq, .hstart, .hend, .ret] }

theorem drainRun_reachable :
    Relation.ReflTransGen PushStep (pushInit 1 1) drainRunFinal :=
  .head (PushStep.enq (pushInit 1 1) (by decide) rfl (by decide))
    (.head (PushStep.take _ (by decide) (by decide))
      (.head (PushStep.finish _ (by decide))
        (.head (PushStep.cancel _)
          (.head (PushStep.drainClose _ rfl rfl)
            (.head (PushStep.exit _ (by decide) rfl rfl)
              (.head (PushStep.ret _ rfl rfl rfl) .refl))))))

/-- End state of a run with one worker and one message delivered after
cancellation: the callback's `<-parent.Done()` case fires, so the
message is neither enqueued nor recorded as dropped. -/
def skipRunFinal : PushState :=
  { cap := 4, queue := 0, closed := true, cancelled := true, pending := 0,
    idle := 0, busy := 0, mainPC := .done, trace := [.skip, .ret] }

theorem skipRun_reachable :
    Relation.ReflTransGen PushStep (pushInit 1 1) skipRunFinal :=
  .head (PushStep.cancel (pushInit 1 1))
    (.head (PushStep.skip _ (by decide) rfl rfl)
      (.head (PushStep.drainClose _ rfl rfl)
        (.head (PushStep.exit _ (by decide) rfl rfl)
          (.head (PushStep.ret _ rfl rfl rfl) .refl))))

/-! ### Sample pull-mode inputs shared by witnesses -/

/-- A concrete handler: fails on messages whose id is `"bad"`. -/
def sampleHandler : Msg → Option GoErr :=
  fun m => if m.msgId = "bad" then some (GoErr.other "handler failed") else none

/-- A concrete fetch-loop script: a batch of two messages, an empty
timeout iteration, a failing fetch, then cancellation. -/
def sampleScript : List FetchOutcome :=
  [.batch [⟨[1], "good"⟩, ⟨[2], "bad"⟩], .fetchTimeout,
   .fetchFail (GoErr.other "io"), .cancelled]

/-! ### Pull-loop trace facts -/

theorem processOne_facts (h : Msg → Option GoErr) (m : Msg) :
    countOf JsEv.hstart (processOne h m) = 1 ∧
    countOf JsEv.hend (processOne h m) = 1 ∧
    JsEv.retNil ∉ processOne h m := by
  cases hm : h m <;> simp [processOne, hm, countOf]

theorem batch_flatten_facts (h : Msg → Option GoErr) (msgs : List Msg) :
    countOf JsEv.hstart ((msgs.map (processOne h)).flatten) =
      countOf JsEv.hend ((msgs.map (processOne h)).flatten) ∧
    JsEv.retNil ∉ (msgs.map (processOne h)).flatten := by
  induction msgs with
  | nil => simp [countOf]
  | cons m rest ih =>
    have hp := processOne_facts h m
    constructor
    · simp [countOf_append, hp.1, hp.2.1, ih.1]
    · simp [List.mem_append, hp.2.2, ih.2]

/-- The fetch-loop trace is some handler activity followed by the final
`return nil`, with all handler invocations balanced before it. -/
theorem jsLoopTrace_shape (h : Msg → Option GoErr) (script : List FetchOutcome) :
    ∃ pre, jsLoopTrace h script = pre ++ [JsEv.retNil] ∧ JsEv.retNil ∉ pre ∧
      countOf JsEv.hstart pre = countOf JsEv.hend pre := by
  induction script with
  | nil => exact ⟨[], rfl, by simp, by simp [countOf]⟩
  | cons o rest ih =>
    cases o with
    | cancelled => exact ⟨[], rfl, by simp, by simp [countOf]⟩
    | fetchFail e =>
      obtain ⟨pre, heq, hmem, hcnt⟩ := ih
      exact ⟨.fetchLog :: pre, by simp [jsLoopTrace, heq],
        by simp [hmem], by simpa [countOf] using hcnt⟩
    | fetchTimeout =>
      obtain ⟨pre, heq, hmem, hcnt⟩ := ih
      exact ⟨pre, by simp [jsLoopTrace, heq], hmem, hcnt⟩
    | batch msgs =>
      obtain ⟨pre, heq, hmem, hcnt⟩ := ih
      have hb := batch_flatten_facts h msgs
      refine ⟨(msgs.map (processOne h)).flatten ++ pre, ?_, ?_, ?_⟩
      · simp [jsLoopTrace, heq]
      · simp [List.mem_append, hb.2, hmem]
      · simp [countOf_append, hb.1, hcnt]

/-! ## Claim theorems -/

/-- Claim C1: in push mode, in every reachable state of the machine no
handler invocation starts after `Consume`'s return event, and once the
return event has happened every started handler invocation has ended
and every worker has exited; in pull mode, the fetch-loop trace ends at
the `return nil` event with all handler invocations balanced before
it. -/
theorem c1_consume_drain :
    (∀ (n p : Nat) (s : PushState),
        Relation.ReflTransGen PushStep (pushInit n p) s →
        noStartAfter Ev.ret Ev.hstart s.trace = true ∧
        (Ev.ret ∈ s.trace →
          countOf Ev.hstart s.trace = countOf Ev.hend s.trace ∧
          s.idle = 0 ∧ s.busy = 0)) ∧
    (∀ (h : Msg → Option GoErr) (script : List FetchOutcome),
        noStartAfter JsEv.retNil JsEv.hstart (jsLoopTrace h script) = true ∧
        countOf JsEv.hstart (jsLoopTrace h script) =
          countOf JsEv.hend (jsLoopTrace h script)) := by
  constructor
  · intro n p s hr
    obtain ⟨h1, h2, h3, h4, h5, h6, h7, h8, h9, h10, h11, h12⟩ := pushInv_reachable hr
    by_cases hd : s.mainPC = .done
    · obtain ⟨-, hidle, hbusy, pre, htr, hpre⟩ := h9 hd
      exact ⟨htr ▸ noStartAfter_append_ret Ev.ret Ev.hstart hpre,
        fun _ => ⟨by omega, hidle, hbusy⟩⟩
    · have hret := h10 hd
      exact ⟨noStartAfter_of_not_mem Ev.ret Ev.hstart hret,
        fun hmem => absurd hmem hret⟩
  · intro h script
    obtain ⟨pre, heq, hmem, hcnt⟩ := jsLoopTrace_shape h script
    rw [heq]
    refine ⟨noStartAfter_append_ret JsEv.retNil JsEv.hstart hmem, ?_⟩
    simp [countOf_append, countOf, hcnt]

/-- Witness for C1: the push part instantiated at a completed
one-worker one-message run, the pull part at a concrete handler and
script. -/
theorem c1_consume_drain_witness :
    (noStartAfter Ev.ret Ev.hstart drainRunFinal.trace = true ∧
      (Ev.ret ∈ drainRunFinal.trace →
        countOf Ev.hstart drainRunFinal.trace = countOf Ev.hend drainRunFinal.trace ∧
        drainRunFinal.idle = 0 ∧ drainRunFinal.busy = 0)) ∧
    (noStartAfter JsEv.retNil JsEv.hstart (jsLoopTrace sampleHandler sampleScript) = true ∧
      countOf JsEv.hstart (jsLoopTrace sampleHandler sampleScript) =
        countOf JsEv.hend (jsLoopTrace sampleHandler sampleScript)) :=
  ⟨c1_consume_drain.1 1 1 drainRunFinal drainRun_reachable,
   c1_consume_drain.2 sampleHandler sampleScript⟩

/-- Claim C2: in the pull-mode per-message block, a failing handler
leads to exactly one `Nak()` and no `Ack()`, a succeeding handler to
exactly one `Ack()` and no `Nak()`. -/
theorem c2_pull_ack_nak (h : Msg → Option GoErr) (m : Msg) :
    (h m ≠ none →
      countOf JsEv.nakCall (processOne h m) = 1 ∧
      countOf JsEv.ackCall (processOne h m) = 0) ∧
    (h m = none →
      countOf JsEv.ackCall (processOne h m) = 1 ∧
      countOf JsEv.nakCall (processOne h m) = 0) := by
  cases hm : h m <;> simp [processOne, hm, countOf]

/-- Witness for C2 at a failing and a succeeding concrete message. -/
theorem c2_pull_ack_nak_witness :
    (countOf JsEv.nakCall (processOne sampleHandler ⟨[2], "bad"⟩) = 1 ∧
      countOf JsEv.ackCall (processOne sampleHandler ⟨[2], "bad"⟩) = 0) ∧
    (countOf JsEv.ackCall (processOne sampleHandler ⟨[1], "good"⟩) = 1 ∧
      countOf JsEv.nakCall (processOne sampleHandler ⟨[1], "good"⟩) = 0) :=
  ⟨(c2_pull_ack_nak sampleHandler ⟨[2], "bad"⟩).1 (by decide),
   (c2_pull_ack_nak sampleHandler ⟨[1], "good"⟩).2 (by decide)⟩

theorem ensureIter_fixed {s : String} (k : Nat) {js : FakeJS}
    (h : s ∈ js.streams) : (ensureIter js s k).2 = js := by
  induction k with
  | zero => rfl
  | succ k ih => simp [ensureIter, ensureStream_fixed h, ih]

theorem ensureIter_errs_none (s : String) : ∀ (k : Nat) (js : FakeJS),
    ∀ e ∈ (ensureIter js s k).1, e = none := by
  intro k
  induction k with
  | zero => intro js e he; simp [ensureIter] at he
  | succ k ih =>
    intro js e he
    simp only [ensureIter] at he
    rcases List.mem_cons.1 he with h0 | hrest
    · rw [h0]; exact ensureStream_err_none js s
    · exact ih _ e hrest

/-- Claim C3: calling `EnsureStream` `N` times against the fake broker
yields no error on any call, and (starting from a broker without a
duplicate) leaves at most one stream for the subject; moreover after
the first call the broker state never changes again. -/
theorem c3_ensure_idempotent (js : FakeJS) (s : String) (N : Nat)
    (hclean : countOf s js.streams ≤ 1) :
    (∀ e ∈ (ensureIter js s N).1, e = none) ∧
    countOf s ((ensureIter js s N).2).streams ≤ 1 ∧
    (1 ≤ N → (ensureIter js s N).2 = (ensureStream js s).2) := by
  refine ⟨ensureIter_errs_none s N js, ?_, ?_⟩
  · cases N with
    | zero => simpa [ensureIter] using hclean
    | succ k =>
      have hfix : (ensureIter (ensureStream js s).2 s k).2 = (ensureStream js s).2 :=
        ensureIter_fixed k (ensureStream_mem js s)
      have hstep : (ensureIter js s (k + 1)).2 = (ensureIter (ensureStream js s).2 s k).2 := by
        simp [ensureIter]
      rw [hstep, hfix, ensureStream_count js s]
      by_cases hmem : s ∈ js.streams
      · simpa [hmem] using hclean
      · have h0 := countOf_eq_zero_of_not_mem hmem
        simp [hmem, h0]
  · intro hN
    cases N with
    | zero => omega
    | succ k =>
      have hfix : (ensureIter (ensureStream js s).2 s k).2 = (ensureStream js s).2 :=
        ensureIter_fixed k (ensureStream_mem js s)
      simp [ensureIter, hfix]

/-- Witness for C3: three calls against an initially empty broker. -/
theorem c3_ensure_idempotent_witness :
    countOf "orders" (FakeJS.mk []).streams ≤ 1 ∧
    ((∀ e ∈ (ensureIter ⟨[]⟩ "orders" 3).1, e = none) ∧
      countOf "orders" ((ensureIter (⟨[]⟩ : FakeJS) "orders" 3).2).streams ≤ 1 ∧
      (1 ≤ 3 → (ensureIter (⟨[]⟩ : FakeJS) "orders" 3).2 = (ensureStream ⟨[]⟩ "orders").2)) :=
  ⟨by decide, c3_ensure_idempotent ⟨[]⟩ "orders" 3 (by decide)⟩

/-- Counterexample to C4: when the lookup reports the stream absent and
the racing create fails with "already exists", `EnsureStream` returns
that error, not `nil` — the claimed conversion to success does not
happen in the code (`return err` at line 78 returns the `AddStream`
error unchanged). -/
theorem c4_counterexample :
    ensureStreamGo (some GoErr.streamNotFound) (some GoErr.streamAlreadyExists)
        = some GoErr.streamAlreadyExists ∧
    ensureStreamGo (some GoErr.streamNotFound) (some GoErr.streamAlreadyExists)
        ≠ none := by
  decide

/-- Claim C4 as amended: when the lookup reports the stream absent,
`EnsureStream` returns whatever the create returned — an "already
exists" failure from a lost creation race included — rather than
converting it to success. -/
theorem c4_create_error_propagated (addErr : Option GoErr) :
    ensureStreamGo (some GoErr.streamNotFound) addErr = addErr := by
  simp [ensureStreamGo]

/-- Claim C5: on the durable (JetStream) path, whenever a JetStream
publish is attempted, the attached `Nats-Msg-Id` is the caller's id
when non-empty and the generated id otherwise, it is never empty, and
the very first broker call of the publish is `EnsureStream` for that
subject. -/
theorem c5_durable_publish_header (p : PubCfg) (env : PubEnv) (ctx : GoCtx)
    (subject0 msgID0 : String)
    (hdone : ctx.done = false) (hjs : p.useJetStream = true)
    (hnil : env.jsNil = false) (hgen : env.genId ≠ "") :
    ∀ sub i, PubEff.jsPublish sub i ∈ (publishWithID p env ctx subject0 msgID0).2 →
      i ≠ "" ∧ i = (if msgID0 = "" then env.genId else msgID0) ∧
      ((publishWithID p env ctx subject0 msgID0).2).head? = some (PubEff.ensure sub) := by
  intro sub i hmem
  have hid : (if msgID0 = "" then env.genId else msgID0) ≠ "" := by
    by_cases hm : msgID0 = "" <;> simp [hm, hgen]
  cases hens : env.ensureErr <;> cases hmar : env.marshalErr <;>
    simp [publishWithID, hdone, hjs, hnil, hens, hmar] at hmem
  obtain ⟨hsub, hi⟩ := hmem
  subst hsub hi
  simp [publishWithID, hdone, hjs, hnil, hens, hmar, hid]

/-- Witness for C5 at a concrete durable publish with a caller id. -/
theorem c5_durable_publish_header_witness :
    ("m1" : String) ≠ "" ∧
    ((publishWithID ⟨"", true⟩ ⟨false, "gen123", none, none, none, none, none, none⟩
        ⟨false, false⟩ "orders" "m1").2).head? = some (PubEff.ensure "orders") :=
  have h := c5_durable_publish_header ⟨"", true⟩
      ⟨false, "gen123", none, none, none, none, none, none⟩ ⟨false, false⟩
      "orders" "m1" rfl rfl rfl (by decide) "orders" "m1" (by decide)
  ⟨h.1, h.2.2⟩

/-- Claim C6 counterexample: a complete one-worker run in which the
single produced message is delivered after cancellation: the callback
takes the `<-parent.Done()` case, so the message is neither enqueued
(hence never handled) nor recorded as dropped, and
`delivered + dropped = 0 ≠ 1 = produced`. -/
theorem c6_counterexample :
    Relation.ReflTransGen PushStep (pushInit 1 1) skipRunFinal ∧
    skipRunFinal.pending = 0 ∧
    countOf Ev.hstart skipRunFinal.trace + countOf Ev.drop skipRunFinal.trace = 0 ∧
    countOf Ev.enq skipRunFinal.trace = 0 ∧
    countOf Ev.skip skipRunFinal.trace = 1 ∧
    (0 : Nat) ≠ 1 :=
  ⟨skipRun_reachable, rfl, by decide, by decide, by decide, by decide⟩

/-- Claim C6 as amended: every callback invocation enqueues, drops with
a recorded "dropped" event, or — only once the context has been
cancelled — skips the message without recording anything; therefore in
any reachable state `enqueued + dropped = processed deliveries` while
the context is live, and enqueued messages are handled by exactly one
worker each (`enqueued = handler starts + still queued`). -/
theorem c6_accounting (n p : Nat) (s : PushState)
    (hr : Relation.ReflTransGen PushStep (pushInit n p) s) :
    countOf Ev.enq s.trace + countOf Ev.drop s.trace + countOf Ev.skip s.trace
        = p - s.pending ∧
    s.pending ≤ p ∧
    (s.cancelled = false →
      countOf Ev.enq s.trace + countOf Ev.drop s.trace = p - s.pending) ∧
    countOf Ev.enq s.trace = countOf Ev.hstart s.trace + s.queue := by
  obtain ⟨h1, h2, h3, h4, h5, h6, h7, h8, h9, h10, h11, h12⟩ := pushInv_reachable hr
  refine ⟨by omega, by omega, fun hc => ?_, h4⟩
  have := h6 hc
  omega

/-- Witness for C6's amended accounting at a completed run. -/
theorem c6_accounting_witness :
    countOf Ev.enq drainRunFinal.trace + countOf Ev.drop drainRunFinal.trace
        + countOf Ev.skip drainRunFinal.trace = 1 - drainRunFinal.pending ∧
    drainRunFinal.pending ≤ 1 ∧
    (drainRunFinal.cancelled = false →
      countOf Ev.enq drainRunFinal.trace + countOf Ev.drop drainRunFinal.trace
        = 1 - drainRunFinal.pending) ∧
    countOf Ev.enq drainRunFinal.trace
        = countOf Ev.hstart drainRunFinal.trace + drainRunFinal.queue :=
  c6_accounting 1 1 drainRunFinal drainRun_reachable

/-- Claim C7: a context that is already done at entry makes every
publish entry point return the cancellation error with an empty effect
trace — no serialization attempt and no broker call. -/
theorem c7_cancelled_publish (p : PubCfg) (pfx2 : String) (env : PubEnv)
    (ctx : GoCtx) (subject msgID : String) (hdone : ctx.done = true) :
    publishWithID p env ctx subject msgID = (some GoErr.ctxCanceled, []) ∧
    publish p env ctx subject = (some GoErr.ctxCanceled, []) ∧
    publishClassic pfx2 env ctx subject = (some GoErr.ctxCanceled, []) := by
  simp [publishWithID, publish, publishClassic, hdone]

/-- Witness for C7 at a concrete done context. -/
theorem c7_cancelled_publish_witness :
    publishWithID ⟨"evt.", true⟩ ⟨false, "gen123", none, none, none, none, none, none⟩
        ⟨true, false⟩ "orders" "m1" = (some GoErr.ctxCanceled, []) ∧
    publish ⟨"evt.", true⟩ ⟨false, "gen123", none, none, none, none, none, none⟩
        ⟨true, false⟩ "orders" = (some GoErr.ctxCanceled, []) ∧
    publishClassic "evt." ⟨false, "gen123", none, none, none, none, none, none⟩
        ⟨true, false⟩ "orders" = (some GoErr.ctxCanceled, []) :=
  c7_cancelled_publish ⟨"evt.", true⟩ "evt."
    ⟨false, "gen123", none, none, none, none, none, none⟩ ⟨true, false⟩
    "orders" "m1" rfl

/-- Claim C8 counterexample: with a successful subscribe and no stream
provisioning involved, a failing initial `Flush` still makes push-mode
`Consume` return a non-nil error — so "non-nil iff subscribe or
stream-provisioning failure" is too narrow. -/
theorem c8_counterexample :
    (consumeCoreOutcome none (some GoErr.flushErr)).err = some GoErr.flushErr ∧
    (consumeCoreOutcome none (some GoErr.flushErr)).err ≠ none ∧
    (consumeCoreOutcome none (some GoErr.flushErr)).ready = false := by
  decide

/-- Claim C8 as amended: `Consume` returns a non-nil error iff setup
fails — subscribe failure or initial flush failure in push mode, stream
provisioning failure or pull-subscribe failure in pull mode — in which
case Ready is never entered; once setup has succeeded the return value
is `nil` regardless of handler errors, fetch errors and empty-batch
timeouts. -/
theorem c8_setup_errors (subErr flushErr ensureErr pullSubErr : Option GoErr)
    (h : Msg → Option GoErr) (script : List FetchOutcome) :
    ((consumeCoreOutcome subErr flushErr).err = none ↔
      subErr = none ∧ flushErr = none) ∧
    ((consumeCoreOutcome subErr flushErr).err ≠ none →
      (consumeCoreOutcome subErr flushErr).ready = false) ∧
    ((consumeJetStream ensureErr pullSubErr h script).err = none ↔
      ensureErr = none ∧ pullSubErr = none) ∧
    ((consumeJetStream ensureErr pullSubErr h script).err ≠ none →
      (consumeJetStream ensureErr pullSubErr h script).ready = false) ∧
    (ensureErr = none → pullSubErr = none →
      (consumeJetStream ensureErr pullSubErr h script).err = none) := by
  cases subErr <;> cases flushErr <;> cases ensureErr <;> cases pullSubErr <;>
    simp [consumeCoreOutcome, consumeJetStream, jsLoopResult_eq_none]

/-- Witness for C8's amended statement at concrete setup outcomes. -/
theorem c8_setup_errors_witness :
    (consumeCoreOutcome none none).err = none ∧
    (consumeJetStream none none sampleHandler sampleScript).err = none ∧
    (consumeCoreOutcome (some GoErr.publishErr) none).ready = false :=
  have h := c8_setup_errors none none none none sampleHandler sampleScript
  have h2 := c8_setup_errors (some GoErr.publishErr) none none none
      sampleHandler sampleScript
  ⟨h.1.2 ⟨rfl, rfl⟩, h.2.2.2.2 rfl rfl, h2.2.1 (by decide)⟩

/-- Claim C9: with JetStream enabled but a nil JetStream context, the
publish silently takes the classic path: the result does not depend on
the caller's message id, no stream is ensured, no JetStream publish
(hence no `Nats-Msg-Id` header) happens, and the outcome is exactly
the classic publish outcome — no error for the missing durable path. -/
theorem c9_nil_js_fallback (p : PubCfg) (env : PubEnv) (ctx : GoCtx)
    (subject a b : String) (_hjs : p.useJetStream = true) (hnil : env.jsNil = true) :
    publishWithID p env ctx subject a = publishWithID p env ctx subject b ∧
    (∀ x, PubEff.ensure x ∉ (publishWithID p env ctx subject a).2) ∧
    (∀ x i, PubEff.jsPublish x i ∉ (publishWithID p env ctx subject a).2) ∧
    publishWithID p env ctx subject a =
      (if ctx.done then (some GoErr.ctxCanceled, ([] : List PubEff))
       else corePublishPath env ctx (if p.pfx = "" then subject else p.pfx ++ subject)) := by
  refine ⟨by simp [publishWithID, hnil], ?_, ?_, by simp [publishWithID, hnil]⟩ <;>
    cases hd : ctx.done <;>
      cases hmar : env.marshalErr <;> cases hcore : env.corePubErr <;>
        cases hdl : ctx.hasDeadline <;>
          simp [publishWithID, corePublishPath, hnil, hd, hmar, hcore, hdl]

/-- Witness for C9 at a concrete nil-JetStream publisher. -/
theorem c9_nil_js_fallback_witness :
    publishWithID ⟨"", true⟩ ⟨true, "gen123", none, none, none, none, none, none⟩
        ⟨false, false⟩ "orders" "m1" =
      publishWithID ⟨"", true⟩ ⟨true, "gen123", none, none, none, none, none, none⟩
        ⟨false, false⟩ "orders" "" ∧
    (∀ x, PubEff.ensure x ∉
      (publishWithID ⟨"", true⟩ ⟨true, "gen123", none, none, none, none, none, none⟩
        ⟨false, false⟩ "orders" "m1").2) ∧
    (∀ x i, PubEff.jsPublish x i ∉
      (publishWithID ⟨"", true⟩ ⟨true, "gen123", none, none, none, none, none, none⟩
        ⟨false, false⟩ "orders" "m1").2) ∧
    publishWithID ⟨"", true⟩ ⟨true, "gen123", none, none, none, none, none, none⟩
        ⟨false, false⟩ "orders" "m1" =
      (if (⟨false, false⟩ : GoCtx).done then (some GoErr.ctxCanceled, ([] : List PubEff))
       else corePublishPath ⟨true, "gen123", none, none, none, none, none, none⟩
         ⟨false, false⟩ (if ("" : String) = "" then "orders" else "" ++ "orders")) :=
  c9_nil_js_fallback ⟨"", true⟩ ⟨true, "gen123", none, none, none, none, none, none⟩
    ⟨false, false⟩ "orders" "m1" "" rfl rfl

/-- Claim C10 counterexample: for `concurrency = -1` (which is `≤ 0`)
the queue allocation `make(chan *nats.Msg, concurrency*4)` panics at
runtime instead of creating an unbuffered queue and returning `nil`. -/
theorem c10_counterexample :
    consumeCoreChanCap (-1) = none ∧ consumeCoreChanCap (-1) ≠ some 0 := by
  decide

/-- Claim C10 as amended: the concurrency option is not validated; for
`concurrency = 0` push-mode `Consume` starts zero workers over an
unbuffered queue, the handler is never invoked, every message delivered
while the context is live is dropped, the return event occurs only
after cancellation, and the steady-state return value is `nil`; for
negative concurrency the queue allocation panics. -/
theorem c10_concurrency_zero :
    (∀ c : Int, c < 0 → consumeCoreChanCap c = none) ∧
    consumeCoreChanCap 0 = some 0 ∧
    (∀ (p : Nat) (s : PushState),
      Relation.ReflTransGen PushStep (pushInit 0 p) s →
      s.idle = 0 ∧ s.busy = 0 ∧
      countOf Ev.hstart s.trace = 0 ∧
      (s.cancelled = false → countOf Ev.drop s.trace = p - s.pending) ∧
      (Ev.ret ∈ s.trace → s.cancelled = true)) ∧
    (consumeCoreOutcome none none).err = none := by
  refine ⟨?_, by decide, ?_, rfl⟩
  · intro c hc
    have h4 : c * 4 < 0 := by omega
    simp [consumeCoreChanCap, makeChanCap, h4]
  · intro p s hr
    obtain ⟨h1, h2, h3, h4, h5, h6, h7, h8, h9, h10, h11, h12⟩ := pushInv_reachable hr
    have hq : s.queue = 0 := by omega
    have hs : countOf Ev.hstart s.trace = 0 := h12 rfl
    have henq : countOf Ev.enq s.trace = 0 := by omega
    refine ⟨by omega, by omega, hs, fun hc => ?_, fun hmem => ?_⟩
    · have := h6 hc
      omega
    · have hd : s.mainPC = .done := by
        by_contra hd
        exact absurd hmem (h10 hd)
      exact h7 (by simp [hd])

/-- Witness for C10's amended statement. -/
theorem c10_concurrency_zero_witness :
    consumeCoreChanCap (-2) = none ∧
    ((pushInit 0 3).idle = 0 ∧ (pushInit 0 3).busy = 0 ∧
      countOf Ev.hstart (pushInit 0 3).trace = 0 ∧
      ((pushInit 0 3).cancelled = false →
        countOf Ev.drop (pushInit 0 3).trace = 3 - (pushInit 0 3).pending) ∧
      (Ev.ret ∈ (pushInit 0 3).trace → (pushInit 0 3).cancelled = true)) :=
  ⟨c10_concurrency_zero.1 (-2) (by decide),
   c10_concurrency_zero.2.2.1 3 (pushInit 0 3) .refl⟩

end Messaging
